import Mathlib

/-!
Verification of the PublishingStrategist repository (KDP Strategist).

This file gives a shallow embedding, in Lean 4, of the data models and
algorithms of the repository that the frozen claims are about:

* `src/src/kdp_strategist/models/niche_model.py` (the `Niche` dataclass,
  tier derivation),
* `src/src/kdp_strategist/models/trend_model.py` (the `TrendAnalysis`
  dataclass and its validators),
* `src/src/kdp_strategist/agent/tools/niche_discovery.py` (`NicheScorer`,
  `KeywordExpander`),
* `src/src/kdp_strategist/agent/tools/competitor_analysis.py`
  (`CompetitorAnalyzer.estimate_monthly_sales`),
* `src/src/kdp_strategist/agent/tools/stress_testing.py` (`StressTester`
  and the report assembly of `niche_stress_test`).

Modelling conventions:
* Python floats are modelled as exact rationals (`ℚ`); `round(x, n)` is
  modelled as decimal round-half-to-even on the exact rational value.
* Fallible Python code is modelled with `Except PyErr`; the constructors of
  `PyErr` mirror the Python exception classes that the embedded code can
  raise (`AttributeError`, `NameError`, `ValueError`,
  `statistics.StatisticsError`, `ZeroDivisionError`).
* Python attribute lookup on a `Niche` instance is modelled explicitly: the
  class's attribute names are transcribed into `nicheAttributeNames`, and a
  lookup of a name outside that list is an `AttributeError`, exactly as in
  CPython.  This matters because several functions of the repository access
  attributes that the `Niche` class does not define.
* A Python `dict` argument that is only consumed through `.get` calls is
  modelled as a structure of `Option` fields; a falsy value at a dict/list
  parameter (Python `None` or an empty dict) is modelled as `none`.
-/

/-- Python exceptions that the embedded code can raise. -/
inductive PyErr where
  | attributeError (name : String)
  | nameError (name : String)
  | valueError (msg : String)
  | statisticsError (msg : String)
  | zeroDivisionError
  deriving DecidableEq, Repr

/-- Message text carried by an exception, as `str(e)` would produce it. -/
def PyErr.message : PyErr → String
  | .attributeError name => "'Niche' object has no attribute '" ++ name ++ "'"
  | .nameError name => "name '" ++ name ++ "' is not defined"
  | .valueError msg => msg
  | .statisticsError msg => msg
  | .zeroDivisionError => "float division by zero"

/-- Round-half-to-even of a rational to an integer (Python `round` on an
exact value). -/
def roundHalfEven (q : ℚ) : ℤ :=
  let f := ⌊q⌋
  let frac := q - (f : ℚ)
  if frac < 1/2 then f
  else if 1/2 < frac then f + 1
  else if f % 2 = 0 then f else f + 1

/-- Python `round(x, n)` on an exact rational value. -/
def roundTo (q : ℚ) (n : ℕ) : ℚ :=
  (roundHalfEven (q * (10 : ℚ) ^ n) : ℚ) / (10 : ℚ) ^ n

/-- Python `a / b` (raises `ZeroDivisionError` when `b = 0`). -/
def pyDiv (a b : ℚ) : Except PyErr ℚ :=
  if b = 0 then .error .zeroDivisionError else pure (a / b)

instance {ε α : Type} [DecidableEq ε] [DecidableEq α] :
    DecidableEq (Except ε α) := fun x y =>
  match x, y with
  | .ok a, .ok b =>
    if h : a = b then .isTrue (by rw [h]) else .isFalse (by simp [h])
  | .error a, .error b =>
    if h : a = b then .isTrue (by rw [h]) else .isFalse (by simp [h])
  | .ok _, .error _ => .isFalse (by simp)
  | .error _, .ok _ => .isFalse (by simp)

/-- ASCII whitespace, as Python's `str.strip`, `str.split` and the regex
class `\s` treat it (the embedded inputs are ASCII). -/
def pyIsSpace (c : Char) : Bool :=
  c = ' ' || c = '\t' || c = '\n' || c = '\r' || c = '\x0b' || c = '\x0c'

/-- Python `str.strip()` on the character list of a string. -/
def pyStripChars (l : List Char) : List Char :=
  ((l.dropWhile pyIsSpace).reverse.dropWhile pyIsSpace).reverse

/-- Python `str.strip()`. -/
def pyStrip (s : String) : String :=
  ⟨pyStripChars s.data⟩

/-! ## `models/niche_model.py` -/

/-- Embedding of the `CompetitionLevel` enum. -/
inductive CompetitionLevel where
  | low | medium | high
  deriving DecidableEq, Repr

/-- Embedding of the `ProfitabilityTier` enum. -/
inductive ProfitabilityTier where
  | low | medium | high
  deriving DecidableEq, Repr

/-- Embedding of the `RiskLevel` enum. -/
inductive RiskLevel where
  | low | medium | high | veryHigh
  deriving DecidableEq, Repr

/-- Embedding of `Niche._determine_competition_level`. -/
def determineCompetitionLevel (score : ℚ) : CompetitionLevel :=
  if score ≤ 30 then .low
  else if score ≤ 60 then .medium
  else .high

/-- Embedding of `Niche._determine_profitability_tier`. -/
def determineProfitabilityTier (score : ℚ) : ProfitabilityTier :=
  if 80 ≤ score then .high
  else if 60 ≤ score then .medium
  else .low

/-- Embedding of the `Niche` dataclass fields used by the claims.  The
remaining fields of the dataclass (`subcategory`, `trend_analysis_data`,
`competitor_analysis_data`, `analysis_date`, `additional_data`) carry data
that no embedded function reads before the first attribute failure, and are
omitted from the record; their names still appear in
`nicheAttributeNames`. -/
structure Niche where
  category : String
  primary_keyword : String
  keywords : List String := []
  competition_score_numeric : ℚ := 0
  profitability_score_numeric : ℚ := 0
  market_size_score : ℚ := 0
  confidence_score : ℚ := 0
  competition_level : CompetitionLevel := .medium
  profitability_tier : ProfitabilityTier := .medium
  seasonal_factors : List (String × ℚ) := []
  content_gaps : List String := []
  recommended_price_range : ℚ × ℚ := (9.99, 19.99)
  top_competitors : List String := []
  deriving DecidableEq, Repr

/-- The attribute names that exist on a `Niche` instance: the dataclass
fields, the properties and the methods defined by the class in
`niche_model.py`.  Transcribed from the class body; note that none of
`_validate_scores`, `_validate_keywords`, `_validate_price_range` is
defined there (the similarly named validators live on other classes:
`TrendAnalysis._validate_scores` in `trend_model.py` and
`Listing._validate_keywords` in `listing_model.py`). -/
def nicheAttributeNames : List String :=
  ["category", "primary_keyword", "subcategory", "keywords",
   "competition_score_numeric", "profitability_score_numeric",
   "market_size_score", "confidence_score",
   "competition_level", "profitability_tier",
   "trend_analysis_data", "competitor_analysis_data",
   "seasonal_factors", "content_gaps",
   "recommended_price_range", "top_competitors",
   "analysis_date", "additional_data",
   "__post_init__", "_determine_competition_level",
   "_determine_profitability_tier",
   "overall_score", "risk_level",
   "get_primary_keywords", "add_competitor", "add_content_gap",
   "set_seasonal_factor", "to_dict", "to_json", "from_dict"]

/-- Attribute lookup on a `Niche` instance: succeeds exactly for the names
the class defines. -/
def nicheHasAttr (name : String) : Bool :=
  nicheAttributeNames.contains name

/-- Looking up (to call) a method by name on a `Niche` instance.  If the
name is not among the class's attributes, CPython raises
`AttributeError` at the lookup, before any call happens. -/
def nicheCallValidator (name : String) : Except PyErr Unit :=
  if nicheHasAttr name then pure () else .error (.attributeError name)

/-- Embedding of the numeric-score property `Niche.overall_score`. -/
def Niche.overallScore (n : Niche) : ℚ :=
  roundTo
    (n.profitability_score_numeric * 0.4 +
     (100 - n.competition_score_numeric) * 0.3 +
     n.market_size_score * 0.2 +
     n.confidence_score * 0.1) 2

/-- Embedding of `Niche.__post_init__`: it first calls
`self._validate_scores()`, `self._validate_keywords()` and
`self._validate_price_range()` (none of which the class defines), then
auto-assigns the categorical levels from the numeric scores. -/
def nichePostInit (n : Niche) : Except PyErr Niche := do
  let _ ← nicheCallValidator "_validate_scores"
  let _ ← nicheCallValidator "_validate_keywords"
  let _ ← nicheCallValidator "_validate_price_range"
  let n := if n.competition_score_numeric ≠ 0 then
      { n with competition_level := determineCompetitionLevel n.competition_score_numeric }
    else n
  let n := if n.profitability_score_numeric ≠ 0 then
      { n with profitability_tier := determineProfitabilityTier n.profitability_score_numeric }
    else n
  pure n

/-- Constructing a `Niche(...)`: the dataclass `__init__` stores the field
values and then runs `__post_init__`. -/
def mkNiche (n : Niche) : Except PyErr Niche :=
  nichePostInit n

/-- Claim C1: for every combination of constructor arguments, constructing a
`Niche` raises an error.  `Niche.__post_init__` unconditionally calls
`self._validate_scores()`, which the class does not define, so every
construction raises `AttributeError` at that lookup and no `Niche` value is
ever produced. -/
theorem claim_C1_niche_construction_always_raises (n : Niche) :
    mkNiche n = .error (.attributeError "_validate_scores") := by
  rfl

/-- Claim C3: tier derivation is a pure deterministic function of the
numeric score.  The derived competition tier is LOW iff the score is ≤ 30,
MEDIUM iff it is in (30, 60], and HIGH iff it is above 60; the derived
profitability tier is HIGH iff the score is ≥ 80, MEDIUM iff it is in
[60, 80), and LOW iff it is below 60.  In particular profitability 85 ⇒
HIGH, 70 ⇒ MEDIUM, 40 ⇒ LOW, and competition 25 ⇒ LOW, 45 ⇒ MEDIUM,
75 ⇒ HIGH. -/
theorem claim_C3_tier_derivation :
    (∀ s : ℚ,
      (determineCompetitionLevel s = .low ↔ s ≤ 30) ∧
      (determineCompetitionLevel s = .medium ↔ 30 < s ∧ s ≤ 60) ∧
      (determineCompetitionLevel s = .high ↔ 60 < s) ∧
      (determineProfitabilityTier s = .high ↔ 80 ≤ s) ∧
      (determineProfitabilityTier s = .medium ↔ 60 ≤ s ∧ s < 80) ∧
      (determineProfitabilityTier s = .low ↔ s < 60)) ∧
    determineProfitabilityTier 85 = .high ∧
    determineProfitabilityTier 70 = .medium ∧
    determineProfitabilityTier 40 = .low ∧
    determineCompetitionLevel 25 = .low ∧
    determineCompetitionLevel 45 = .medium ∧
    determineCompetitionLevel 75 = .high := by
  refine ⟨fun s => ?_, by decide, by decide, by decide, by decide, by decide, by decide⟩
  unfold determineCompetitionLevel determineProfitabilityTier
  split_ifs with h1 h2 h3 h4 <;> simp_all <;> linarith

/-! ## `models/trend_model.py` -/

/-- Embedding of the `TrendAnalysis` dataclass fields used by the claims.
The remaining fields (regional interest, related queries, seasonal data,
metadata dates, peak/low periods, raw data) are not read by any validator
or by the embedded scoring code before its first failure, and are
omitted. -/
structure TrendAnalysis where
  keyword : String
  trend_score : ℚ
  trend_direction : String := "stable"
  trend_strength : String := "moderate"
  forecast_6_months : List ℚ := []
  confidence_level : ℚ := 0
  data_points : ℤ := 0
  volatility_score : ℚ := 0
  growth_rate : ℚ := 0
  deriving DecidableEq, Repr

/-- Embedding of `TrendAnalysis._validate_scores`: `trend_score`,
`confidence_level` and `volatility_score` must each lie in [0, 100],
checked in that order. -/
def trendValidateScores (t : TrendAnalysis) : Except PyErr Unit :=
  if ¬ (0 ≤ t.trend_score ∧ t.trend_score ≤ 100) then
    .error (.valueError "trend_score must be between 0 and 100")
  else if ¬ (0 ≤ t.confidence_level ∧ t.confidence_level ≤ 100) then
    .error (.valueError "confidence_level must be between 0 and 100")
  else if ¬ (0 ≤ t.volatility_score ∧ t.volatility_score ≤ 100) then
    .error (.valueError "volatility_score must be between 0 and 100")
  else pure ()

/-- Embedding of `TrendAnalysis._validate_keyword`: the keyword must be
non-empty and not whitespace-only (`self.keyword.strip()`). -/
def trendValidateKeyword (t : TrendAnalysis) : Except PyErr Unit :=
  if t.keyword = "" ∨ pyStrip t.keyword = "" then
    .error (.valueError "Keyword cannot be empty")
  else pure ()

/-- Embedding of `TrendAnalysis._validate_forecast`: a non-empty forecast
must have exactly 6 entries, each in [0, 100].  (The Python loop raises at
the first offending entry; since the message does not depend on the entry,
checking all entries at once is observationally identical.) -/
def trendValidateForecast (t : TrendAnalysis) : Except PyErr Unit :=
  if t.forecast_6_months = [] then pure ()
  else if t.forecast_6_months.length ≠ 6 then
    .error (.valueError "Forecast must contain exactly 6 monthly values")
  else if t.forecast_6_months.all (fun v => decide (0 ≤ v) && decide (v ≤ 100)) then
    pure ()
  else .error (.valueError "Forecast values must be between 0 and 100")

/-- Embedding of `TrendAnalysis._determine_trend_strength`: overwrites the
categorical `trend_strength` from `trend_score`. -/
def trendDetermineStrength (t : TrendAnalysis) : TrendAnalysis :=
  { t with trend_strength :=
      if t.trend_score ≤ 20 then "very_weak"
      else if t.trend_score ≤ 40 then "weak"
      else if t.trend_score ≤ 60 then "moderate"
      else if t.trend_score ≤ 80 then "strong"
      else "very_strong" }

/-- Constructing a `TrendAnalysis(...)`: the dataclass stores the fields and
`__post_init__` runs scope validation, keyword validation, forecast
validation and strength derivation (the `last_updated` timestamp update is
not modelled). -/
def mkTrendAnalysis (t : TrendAnalysis) : Except PyErr TrendAnalysis := do
  let _ ← trendValidateScores t
  let _ ← trendValidateKeyword t
  let _ ← trendValidateForecast t
  pure (trendDetermineStrength t)

/-- The forecast shape invariant that claim C8 states: empty, or exactly 6
entries each in [0, 100]. -/
def forecastShapeOK (forecast : List ℚ) : Prop :=
  forecast = [] ∨ (forecast.length = 6 ∧ ∀ v ∈ forecast, 0 ≤ v ∧ v ≤ 100)

instance (forecast : List ℚ) : Decidable (forecastShapeOK forecast) := by
  unfold forecastShapeOK; infer_instance

/-- Helper: a successful forecast validation implies the shape invariant. -/
theorem trendValidateForecast_ok {t : TrendAnalysis}
    (h : trendValidateForecast t = .ok ()) :
    forecastShapeOK t.forecast_6_months := by
  unfold trendValidateForecast at h
  unfold forecastShapeOK
  split_ifs at h with h1 h2 h3
  · exact Or.inl h1
  · refine Or.inr ⟨by omega, fun v hv => ?_⟩
    have := List.all_eq_true.mp h3 v hv
    simp only [Bool.and_eq_true, decide_eq_true_eq] at this
    exact this

/-- Helper: a failed forecast validation only happens when the shape
invariant fails, and the error is a `ValueError`. -/
theorem trendValidateForecast_error {t : TrendAnalysis}
    (h : ¬ forecastShapeOK t.forecast_6_months) :
    ∃ msg, trendValidateForecast t = .error (.valueError msg) := by
  unfold forecastShapeOK at h
  push_neg at h
  unfold trendValidateForecast
  split_ifs with h1 h2 h3
  · exact (h.1 h1).elim
  · exact ⟨_, rfl⟩
  · exfalso
    rcases h with ⟨hne, himp⟩
    rcases himp (by omega) with ⟨v, hv, hbad⟩
    have := List.all_eq_true.mp h3 v hv
    simp only [Bool.and_eq_true, decide_eq_true_eq] at this
    exact absurd this.2 (not_le.mpr (hbad this.1))
  · exact ⟨_, rfl⟩

/-- Claim C8: every successfully constructed `TrendAnalysis` satisfies the
forecast invariant (the forecast array is empty or has exactly 6 entries,
all in [0, 100]), and construction with any other forecast shape is
rejected with a validation error (`ValueError`). -/
theorem claim_C8_forecast_invariant :
    (∀ t u : TrendAnalysis, mkTrendAnalysis t = .ok u →
      forecastShapeOK u.forecast_6_months) ∧
    (∀ t : TrendAnalysis, ¬ forecastShapeOK t.forecast_6_months →
      ∃ msg, mkTrendAnalysis t = .error (.valueError msg)) := by
  constructor
  · intro t u h
    unfold mkTrendAnalysis at h
    cases h1 : trendValidateScores t with
    | error e => simp [h1, Bind.bind, Except.bind] at h
    | ok v =>
      cases h2 : trendValidateKeyword t with
      | error e => simp [h1, h2, Bind.bind, Except.bind] at h
      | ok w =>
        cases h3 : trendValidateForecast t with
        | error e => simp [h1, h2, h3, Bind.bind, Except.bind] at h
        | ok x =>
          simp only [h1, h2, h3, Bind.bind, Except.bind, pure, Except.pure, Except.ok.injEq] at h
          have hshape := trendValidateForecast_ok (t := t) (by cases x; exact h3)
          have : u.forecast_6_months = t.forecast_6_months := by
            rw [← h]; rfl
          rwa [this]
  · intro t hbad
    obtain ⟨msg, hmsg⟩ := trendValidateForecast_error (t := t) hbad
    unfold mkTrendAnalysis
    cases h1 : trendValidateScores t with
    | error e =>
      have : ∃ m, e = PyErr.valueError m := by
        unfold trendValidateScores at h1
        split_ifs at h1 <;>
          first
          | exact Except.noConfusion h1
          | exact ⟨_, (Except.error.inj h1).symm⟩
      obtain ⟨m, rfl⟩ := this
      exact ⟨m, by simp [h1, Bind.bind, Except.bind]⟩
    | ok v =>
      cases h2 : trendValidateKeyword t with
      | error e =>
        have : ∃ m, e = PyErr.valueError m := by
          unfold trendValidateKeyword at h2
          split_ifs at h2 <;>
            first
            | exact Except.noConfusion h2
            | exact ⟨_, (Except.error.inj h2).symm⟩
        obtain ⟨m, rfl⟩ := this
        exact ⟨m, by cases v; simp [h1, h2, Bind.bind, Except.bind]⟩
      | ok w =>
        exact ⟨msg, by cases v; cases w; simp [h1, h2, hmsg, Bind.bind, Except.bind]⟩

/-- A concrete valid construction: all scores valid, forecast of 6 entries
in range. -/
def goodTrend : TrendAnalysis :=
  { keyword := "yoga journal", trend_score := 50,
    forecast_6_months := [10, 20, 30, 40, 50, 60], confidence_level := 80,
    volatility_score := 20 }

/-- The result of constructing `goodTrend` (strength derived as
"moderate" since the trend score is 50). -/
def goodTrendOut : TrendAnalysis :=
  { goodTrend with trend_strength := "moderate" }

/-- A concrete invalid construction: a 2-entry forecast. -/
def badTrend : TrendAnalysis :=
  { keyword := "yoga journal", trend_score := 50,
    forecast_6_months := [10, 20], confidence_level := 80,
    volatility_score := 20 }

/-- Witness for claim C8 at concrete inputs: the constructed value from
`goodTrend` satisfies the forecast invariant, and `badTrend` (2-entry
forecast) is rejected with a `ValueError`. -/
theorem claim_C8_forecast_invariant_witness :
    forecastShapeOK goodTrendOut.forecast_6_months ∧
    (∃ msg, mkTrendAnalysis badTrend = .error (.valueError msg)) :=
  ⟨claim_C8_forecast_invariant.1 goodTrend goodTrendOut (by decide),
   claim_C8_forecast_invariant.2 badTrend (by decide)⟩

/-! ## `agent/tools/niche_discovery.py`: `NicheScorer`

The sub-score functions consume `dict` arguments through `.get` calls; each
such dict is modelled as a structure of `Option` fields (`none` at a field
means the key is absent, so the `.get` default applies).  A falsy argument
(`None` or an empty dict) is modelled as the outer `none`. -/

/-- The `competition_data` dict as `_score_competition_level` reads it.  The
`price_range` key is also read by the source, but the value is never used
before the function fails, so it is omitted. -/
structure CompetitionData where
  competitor_count : Option ℚ := none
  avg_review_count : Option ℚ := none
  avg_rating : Option ℚ := none
  deriving DecidableEq, Repr

/-- The `market_metrics` dict as `_score_market_size` reads it. -/
structure MarketMetrics where
  estimated_search_volume : Option ℚ := none
  related_keyword_count : Option ℚ := none
  category_size_score : Option ℚ := none
  deriving DecidableEq, Repr

/-- The `seasonal_patterns` dict as `_score_seasonality` reads it.  The
`peak_months` key is read by the source but never used, and is omitted. -/
structure SeasonalPatterns where
  seasonality_strength : Option ℚ := none
  consistency_score : Option ℚ := none
  deriving DecidableEq, Repr

/-- The `content_analysis` dict as `_score_content_gaps` reads it. -/
structure ContentAnalysis where
  identified_gaps : Option ℚ := none
  avg_content_quality : Option ℚ := none
  differentiation_score : Option ℚ := none
  deriving DecidableEq, Repr

/-- The `niche_data` dict passed to
`NicheScorer.calculate_profitability_score`. -/
structure NicheData where
  trend_analysis : Option TrendAnalysis := none
  competition_data : Option CompetitionData := none
  market_metrics : Option MarketMetrics := none
  seasonal_patterns : Option SeasonalPatterns := none
  content_analysis : Option ContentAnalysis := none

/-- Embedding of `NicheScorer._score_trend_strength`.  For a non-`None`
argument, the source reads `trend_analysis.direction`; the `TrendAnalysis`
dataclass defines the field `trend_direction` and no attribute named
`direction`, so that read raises `AttributeError`. -/
def scoreTrendStrength (trendAnalysis : Option TrendAnalysis) :
    Except PyErr (Option ℚ) :=
  match trendAnalysis with
  | none => pure none
  | some t =>
    let _baseScore := t.trend_score
    .error (.attributeError "direction")

/-- Embedding of `NicheScorer._score_competition_level`.  The function is
declared `@staticmethod` yet its body compares against
`cls.LOW_COMPETITION_THRESHOLD`, `cls.HIGH_REVIEW_THRESHOLD`, …; `cls` is
not bound inside a staticmethod, so for every truthy `competition_data` the
body raises `NameError` — on the `competitor_count == 0` path at the
review-saturation check, and otherwise already at the first `elif` of the
count tiering. -/
def scoreCompetitionLevel (competitionData : Option CompetitionData) :
    Except PyErr (Option ℚ) :=
  match competitionData with
  | none => pure none
  | some d =>
    let competitorCount := d.competitor_count.getD 0
    let _avgReviews := d.avg_review_count.getD 0
    let _avgRating := d.avg_rating.getD 0
    if competitorCount = 0 then
      .error (.nameError "cls")
    else
      .error (.nameError "cls")

/-- Embedding of `NicheScorer._score_market_size`. -/
def scoreMarketSize (marketMetrics : Option MarketMetrics) : Option ℚ :=
  match marketMetrics with
  | none => none
  | some m =>
    let searchVolume := m.estimated_search_volume.getD 0
    let relatedKeywords := m.related_keyword_count.getD 0
    let categorySize := m.category_size_score.getD 50
    let volumeScore : ℚ :=
      if searchVolume > 10000 then 90
      else if searchVolume > 1000 then 70
      else if searchVolume > 100 then 50
      else 30
    let keywordMultiplier := min 1.5 (1 + relatedKeywords / 100)
    some (min 100 ((volumeScore * 0.6 + categorySize * 0.4) * keywordMultiplier))

/-- Embedding of `NicheScorer._score_seasonality`: a falsy argument yields
the fixed neutral score 75 (not `None`); otherwise a stability tier scaled
by the consistency multiplier. -/
def scoreSeasonality (seasonalPatterns : Option SeasonalPatterns) : Option ℚ :=
  match seasonalPatterns with
  | none => some 75
  | some p =>
    let seasonalityStrength := p.seasonality_strength.getD 0
    let consistency := p.consistency_score.getD 50
    let baseScore : ℚ :=
      if seasonalityStrength < 10 then 95
      else if seasonalityStrength < 25 then 80
      else if seasonalityStrength < 50 then 60
      else 40
    some (baseScore * (consistency / 100))

/-- Embedding of `NicheScorer._score_content_gaps`. -/
def scoreContentGaps (contentAnalysis : Option ContentAnalysis) : Option ℚ :=
  match contentAnalysis with
  | none => none
  | some c =>
    let gapCount := c.identified_gaps.getD 0
    let contentQuality := c.avg_content_quality.getD 50
    let differentiation := c.differentiation_score.getD 50
    let gapScore : ℚ :=
      if gapCount > 10 then 90
      else if gapCount > 5 then 70
      else if gapCount > 2 then 50
      else 30
    let qualityMultiplier := (100 - contentQuality) / 100
    some (min 100 ((gapScore * 0.6 + differentiation * 0.4) * (1 + qualityMultiplier)))

/-- The five (sub-score, weight) pairs of `NicheScorer.WEIGHTS`, in the
order of the `scores` dict literal. -/
def scoreEntries (trend competition market seasonality contentGap : Option ℚ) :
    List (Option ℚ × ℚ) :=
  [(trend, 0.25), (competition, 0.30), (market, 0.20),
   (seasonality, 0.15), (contentGap, 0.10)]

/-- Embedding of `sum(score * WEIGHTS[key] ... if score is not None)`. -/
def weightedTotal (entries : List (Option ℚ × ℚ)) : ℚ :=
  entries.foldl
    (fun acc e => match e.1 with | some s => acc + s * e.2 | none => acc) 0

/-- Embedding of `sum(WEIGHTS[key] ... if score is not None)`. -/
def availableWeightSum (entries : List (Option ℚ × ℚ)) : ℚ :=
  entries.foldl
    (fun acc e => match e.1 with | some _ => acc + e.2 | none => acc) 0

/-- Embedding of `NicheScorer.calculate_profitability_score`: the five
sub-scores are computed up-front in the `scores` dict literal (so an
exception of the trend or competition scorer propagates), then the weighted
total over the available sub-scores is divided by their weight sum and
multiplied by 100. -/
def calculateProfitabilityScore (nicheData : NicheData) : Except PyErr ℚ := do
  let trendScore ← scoreTrendStrength nicheData.trend_analysis
  let competitionScore ← scoreCompetitionLevel nicheData.competition_data
  let entries := scoreEntries trendScore competitionScore
    (scoreMarketSize nicheData.market_metrics)
    (scoreSeasonality nicheData.seasonal_patterns)
    (scoreContentGaps nicheData.content_analysis)
  let totalScore := weightedTotal entries
  let weightSum := availableWeightSum entries
  pure (if weightSum > 0 then totalScore / weightSum * 100 else 0)

/-- The `niche_data` input with every key absent: no trend analysis, no
competition data, no market metrics, no seasonal patterns, no content
analysis.  Only the seasonality sub-score is then available (it defaults
to 75), a proper subset of the five. -/
def emptyNicheData : NicheData := {}

/-- Claim C2 (code bug evaluation): on the input where only the seasonality
sub-score is available — a proper subset of the five — the returned
profitability score is 7500, far outside [0, 100].  The renormalized
weighted average (75, already on the 0–100 scale) is multiplied by 100,
contradicting the docstring "Calculate overall profitability score
(0-100)". -/
theorem claim_C2_profitability_score_out_of_range :
    calculateProfitabilityScore emptyNicheData = .ok 7500 ∧
    ¬ ((0 : ℚ) ≤ 7500 ∧ (7500 : ℚ) ≤ 100) := by
  constructor
  · simp only [calculateProfitabilityScore, scoreTrendStrength,
      scoreCompetitionLevel, scoreMarketSize, scoreSeasonality,
      scoreContentGaps, emptyNicheData, scoreEntries, weightedTotal,
      availableWeightSum, Bind.bind, Except.bind, pure, Except.pure,
      List.foldl]
    norm_num
  · intro h
    exact absurd h.2 (by norm_num)

/-- A concrete truthy `competition_data` dict,
`{"competitor_count": 5, "avg_review_count": 500, "avg_rating": 4.0}`. -/
def exampleCompetitionData : CompetitionData :=
  { competitor_count := some 5, avg_review_count := some 500,
    avg_rating := some 4 }

/-- Claim C6 (code bug evaluation): for every non-null (truthy)
competition-data input, `_score_competition_level` raises
`NameError: name 'cls' is not defined` instead of returning the spec
formula's value: the method is a `@staticmethod` whose body reads
`cls.…` threshold constants.  In particular it never returns the base-score
/ multiplier formula of the claim. -/
theorem claim_C6_competition_score_raises_name_error :
    (∀ d : CompetitionData,
      scoreCompetitionLevel (some d) = .error (.nameError "cls")) ∧
    scoreCompetitionLevel (some exampleCompetitionData) =
      .error (.nameError "cls") := by
  have h : ∀ d : CompetitionData,
      scoreCompetitionLevel (some d) = .error (.nameError "cls") :=
    fun d => ite_self _
  exact ⟨h, h exampleCompetitionData⟩

/-- Helper: the seasonality sub-score is never `None`. -/
theorem scoreSeasonality_isSome (sp : Option SeasonalPatterns) :
    (scoreSeasonality sp).isSome = true := by
  unfold scoreSeasonality
  cases sp <;> simp

/-- Claim C10: with no seasonal-pattern data, `_score_seasonality` returns
the fixed neutral 75 rather than `None`; it is never `None` for any input,
so the seasonality component is never treated as unavailable and its 0.15
weight is always part of the weight sum used by
`calculate_profitability_score` — unlike the other four sub-scores, which
are `None` when their input is absent. -/
theorem claim_C10_seasonality_neutral_default :
    scoreSeasonality none = some 75 ∧
    (∀ sp : Option SeasonalPatterns, (scoreSeasonality sp).isSome = true) ∧
    scoreTrendStrength none = .ok none ∧
    scoreCompetitionLevel none = .ok none ∧
    scoreMarketSize none = none ∧
    scoreContentGaps none = none ∧
    (∀ (trend competition market contentGap : Option ℚ)
       (sp : Option SeasonalPatterns),
      0.15 ≤ availableWeightSum
        (scoreEntries trend competition market (scoreSeasonality sp) contentGap)) := by
  refine ⟨rfl, scoreSeasonality_isSome, rfl, rfl, rfl, rfl, ?_⟩
  intro trend competition market contentGap sp
  obtain ⟨v, hv⟩ := Option.isSome_iff_exists.mp (scoreSeasonality_isSome sp)
  rw [hv]
  unfold availableWeightSum scoreEntries
  cases trend <;> cases competition <;> cases market <;> cases contentGap <;>
    simp <;> norm_num

/-! ## `agent/tools/competitor_analysis.py`: `estimate_monthly_sales` -/

/-- Embedding of `CompetitorAnalyzer.BSR_SALES_MAPPING`.  The Python code
iterates `sorted(cls.BSR_SALES_MAPPING.items())`; sorting the keys
ascending yields exactly the listed order. -/
def BSR_SALES_MAPPING : List (ℤ × ℚ) :=
  [(1, 3000), (10, 1500), (100, 300), (1000, 50),
   (10000, 10), (100000, 2), (1000000, 0.5)]

/-- Embedding of `CompetitorAnalyzer.estimate_monthly_sales`.  `not bsr or
bsr <= 0` returns `None` (0 is falsy and covered by `bsr <= 0`).  Within
the table, the first threshold with `bsr <= threshold` wins.  Beyond the
table, the code computes `max(1, int(0.5 * (1000000 / bsr)))`; the argument
of `int(...)` is positive there, so truncation toward zero is the floor. -/
def estimateMonthlySales (bsr : Option ℤ) : Option ℚ :=
  match bsr with
  | none => none
  | some b =>
    if b ≤ 0 then none
    else
      match BSR_SALES_MAPPING.find? (fun ts => decide (b ≤ ts.1)) with
      | some ts => some ts.2
      | none => some (max 1 ((⌊(0.5 : ℚ) * ((1000000 : ℚ) / (b : ℚ))⌋ : ℤ) : ℚ))

/-- The step-table value as a function of the rank, for ranks within the
table (helper for stating evaluations of `estimateMonthlySales`). -/
def tableSales (b : ℤ) : ℚ :=
  if b ≤ 1 then 3000
  else if b ≤ 10 then 1500
  else if b ≤ 100 then 300
  else if b ≤ 1000 then 50
  else if b ≤ 10000 then 10
  else if b ≤ 100000 then 2
  else 0.5

/-- Helper: within the table range the estimate is the step-table value. -/
theorem estimateMonthlySales_table (b : ℤ) (h1 : 1 ≤ b) (h2 : b ≤ 1000000) :
    estimateMonthlySales (some b) = some (tableSales b) := by
  simp only [estimateMonthlySales]
  rw [if_neg (show ¬ b ≤ 0 by omega)]
  unfold tableSales
  simp only [BSR_SALES_MAPPING, List.find?]
  by_cases c1 : b ≤ 1
  · simp [c1]
  · by_cases c2 : b ≤ 10
    · simp [c1, c2]
    · by_cases c3 : b ≤ 100
      · simp [c1, c2, c3]
      · by_cases c4 : b ≤ 1000
        · simp [c1, c2, c3, c4]
        · by_cases c5 : b ≤ 10000
          · simp [c1, c2, c3, c4, c5]
          · by_cases c6 : b ≤ 100000
            · simp [c1, c2, c3, c4, c5, c6]
            · simp [c1, c2, c3, c4, c5, c6, h2]

/-- Helper: the step-table value is non-increasing in the rank. -/
theorem tableSales_antitone (a b : ℤ) (h : a ≤ b) :
    tableSales b ≤ tableSales a := by
  unfold tableSales
  split_ifs <;> first | omega | norm_num

/-- Helper: beyond the table the estimate is the constant 1 (the inverse
extrapolation is below 0.5 there, `int` truncates it to 0, and the result
is floored by `max(1, …)`). -/
theorem estimateMonthlySales_beyond (b : ℤ) (h : 1000000 < b) :
    estimateMonthlySales (some b) = some 1 := by
  simp only [estimateMonthlySales]
  rw [if_neg (show ¬ b ≤ 0 by omega)]
  have hbq : (1000000 : ℚ) < (b : ℚ) := by exact_mod_cast h
  have hbpos : (0 : ℚ) < (b : ℚ) := by linarith
  have hdiv : (1000000 : ℚ) / (b : ℚ) < 1 := (div_lt_one hbpos).mpr hbq
  have hdivnn : (0 : ℚ) ≤ (1000000 : ℚ) / (b : ℚ) := by positivity
  have hfloor : ⌊(0.5 : ℚ) * ((1000000 : ℚ) / (b : ℚ))⌋ = 0 := by
    rw [Int.floor_eq_zero_iff]
    constructor
    · nlinarith
    · show (0.5 : ℚ) * ((1000000 : ℚ) / (b : ℚ)) < 1
      nlinarith
  have hfind :
      BSR_SALES_MAPPING.find? (fun ts => decide (b ≤ ts.1)) = none := by
    simp only [BSR_SALES_MAPPING, List.find?]
    have n1 : ¬ (b ≤ 1) := by omega
    have n2 : ¬ (b ≤ 10) := by omega
    have n3 : ¬ (b ≤ 100) := by omega
    have n4 : ¬ (b ≤ 1000) := by omega
    have n5 : ¬ (b ≤ 10000) := by omega
    have n6 : ¬ (b ≤ 100000) := by omega
    have n7 : ¬ (b ≤ 1000000) := by omega
    simp [n1, n2, n3, n4, n5, n6, n7]
  rw [hfind, hfloor]
  norm_num

/-- Claim C7 counterexample: the estimate is not monotonically
non-increasing across the edge of the step table.  At rank 1,000,000 the
table yields 0.5, while at rank 1,000,001 the extrapolation branch yields
`max(1, int(0.5 × 10^6 / 1000001)) = max(1, 0) = 1 > 0.5`, although
1,000,000 ≤ 1,000,001. -/
theorem claim_C7_bsr_monotone_counterexample :
    (1000000 : ℤ) ≤ 1000001 ∧
    estimateMonthlySales (some 1000000) = some 0.5 ∧
    estimateMonthlySales (some 1000001) = some 1 ∧
    ¬ ((1 : ℚ) ≤ 0.5) := by
  refine ⟨by norm_num, ?_, estimateMonthlySales_beyond 1000001 (by norm_num), by norm_num⟩
  rw [estimateMonthlySales_table 1000000 (by norm_num) (by norm_num)]
  unfold tableSales
  norm_num

/-- Claim C7, amended: `estimate_monthly_sales` is monotonically
non-increasing on ranks 1 … 1,000,000, following the step table at the
thresholds 1/10/100/1,000/10,000/100,000/1,000,000; but for every rank
beyond 1,000,000 the inverse extrapolation truncates to 0 and is floored
by `max(1, …)` to the constant 1, which exceeds the 0.5 estimate of rank
1,000,000, so monotonicity fails exactly at that boundary. -/
theorem claim_C7_bsr_monotone_amended :
    (∀ r1 r2 : ℤ, 1 ≤ r1 → r1 ≤ r2 → r2 ≤ 1000000 →
      ∃ s1 s2 : ℚ, estimateMonthlySales (some r1) = some s1 ∧
        estimateMonthlySales (some r2) = some s2 ∧ s2 ≤ s1) ∧
    (∀ r : ℤ, 1000000 < r → estimateMonthlySales (some r) = some 1) := by
  constructor
  · intro r1 r2 h1 h12 h2
    exact ⟨tableSales r1, tableSales r2,
      estimateMonthlySales_table r1 h1 (by omega),
      estimateMonthlySales_table r2 (by omega) h2,
      tableSales_antitone r1 r2 h12⟩
  · exact estimateMonthlySales_beyond

/-- Witness for the amended claim C7 at concrete ranks: 5 ≤ 500,000 inside
the table, and 2,000,000 beyond it. -/
theorem claim_C7_bsr_monotone_witness :
    (∃ s1 s2 : ℚ, estimateMonthlySales (some 5) = some s1 ∧
      estimateMonthlySales (some 500000) = some s2 ∧ s2 ≤ s1) ∧
    estimateMonthlySales (some 2000000) = some 1 :=
  ⟨claim_C7_bsr_monotone_amended.1 5 500000 (by norm_num) (by norm_num)
      (by norm_num),
   claim_C7_bsr_monotone_amended.2 2000000 (by norm_num)⟩

/-! ## `agent/tools/niche_discovery.py`: `KeywordExpander`

Python's `set` has an unspecified iteration order; it is modelled as an
insertion-ordered list with membership-guarded insertion.  The set's size —
which is all the break conditions inspect — is independent of the order, so
the cap behaviour is faithful; the order of the returned list is the one
modelling choice. -/

/-- Embedding of `KeywordExpander.MODIFIERS` (category, modifier list), in
dict order. -/
def MODIFIERS : List (String × List String) :=
  [("journal", ["journal", "notebook", "diary", "planner", "log",
                "tracker", "organizer"]),
   ("audience", ["kids", "children", "teens", "adults", "seniors",
                 "women", "men", "professionals"]),
   ("purpose", ["daily", "weekly", "monthly", "travel", "work",
                "personal", "business", "creative"]),
   ("style", ["lined", "dotted", "blank", "guided", "prompted",
              "illustrated", "minimalist"]),
   ("theme", ["gratitude", "mindfulness", "fitness", "productivity",
              "self-care", "goals"])]

/-- The modifier list of a category key. -/
def modifiersFor (cat : String) : List String :=
  ((MODIFIERS.find? (fun cm => cm.1 == cat)).map (fun cm => cm.2)).getD []

/-- Embedding of `itertools.combinations(MODIFIERS.keys(), 2)` over the
five category keys in dict order (all 10 ordered pairs; the source slices
`[:5]` at the use site). -/
def modifierPairs : List (String × String) :=
  [("journal", "audience"), ("journal", "purpose"), ("journal", "style"),
   ("journal", "theme"), ("audience", "purpose"), ("audience", "style"),
   ("audience", "theme"), ("purpose", "style"), ("purpose", "theme"),
   ("style", "theme")]

/-- `set.add`: append only if not already present. -/
def setAdd (s : List String) (x : String) : List String :=
  if s.contains x then s else s ++ [x]

/-- Adding a stream of candidates with the source's `break` cascade: after
each `add`, if the set size has reached `max_combinations`, all three
nested loops break.  The size check happens after the `add`, so one
candidate is consumed even if the cap was already reached on entry. -/
def addWithCap (maxCombinations : ℕ) : List String → List String → List String
  | s, [] => s
  | s, x :: xs =>
    let s' := setAdd s x
    if maxCombinations ≤ s'.length then s'
    else addWithCap maxCombinations s' xs

/-- The single-modifier candidates for one base keyword: for every category
and modifier, the prefix combination then the suffix combination. -/
def singleModCandidates (base : String) : List String :=
  MODIFIERS.flatMap (fun cm =>
    cm.2.flatMap (fun m => [m ++ " " ++ base, base ++ " " ++ m]))

/-- The two-modifier candidates for one base keyword: the first 5 category
pairs, the first 3 modifiers of each category. -/
def twoModCandidates (base : String) : List String :=
  (modifierPairs.take 5).flatMap (fun p =>
    ((modifiersFor p.1).take 3).flatMap (fun m1 =>
      ((modifiersFor p.2).take 3).map (fun m2 =>
        m1 ++ " " ++ base ++ " " ++ m2)))

/-- Collapsing each maximal whitespace run into a single space, the effect
of `re.sub` with the whitespace-class pattern and a space replacement.  The
boolean state remembers whether the previous character was whitespace. -/
def collapseSpacesAux : Bool → List Char → List Char
  | _, [] => []
  | prevSpace, c :: cs =>
    if pyIsSpace c then
      if prevSpace then collapseSpacesAux true cs
      else ' ' :: collapseSpacesAux true cs
    else c :: collapseSpacesAux false cs

/-- Embedding of the cleaning step applied to each keyword:
`re.sub` of whitespace runs over `keyword.strip().lower()`.  Python
`str.lower` agrees with `Char.toLower` on the ASCII inputs involved. -/
def normalizeKeyword (k : String) : String :=
  ⟨collapseSpacesAux false ((pyStripChars k.data).map Char.toLower)⟩

/-- Word count of `keyword.split()`: number of maximal non-whitespace
runs. -/
def pyWordCountAux : Bool → List Char → ℕ
  | _, [] => 0
  | inWord, c :: cs =>
    if pyIsSpace c then pyWordCountAux false cs
    else if inWord then pyWordCountAux true cs
    else 1 + pyWordCountAux true cs

/-- Python `len(keyword.split())`. -/
def pyWordCount (k : String) : ℕ :=
  pyWordCountAux false k.data

/-- Embedding of `KeywordExpander.expand_keywords`: the seed set, then per
seed the single-modifier combinations (uncapped) and the capped
two-modifier combinations; finally each set element is cleaned, filtered to
at most 100 characters and at most 6 words, and the list is truncated to
`max_combinations`. -/
def expandKeywords (baseKeywords : List String) (maxCombinations : ℕ) :
    List String :=
  let expanded := baseKeywords.foldl setAdd []
  let expanded := baseKeywords.foldl (fun s base =>
    let s := (singleModCandidates base).foldl setAdd s
    addWithCap maxCombinations s (twoModCandidates base)) expanded
  let cleaned := (expanded.map normalizeKeyword).filter
    (fun k => decide (k.length ≤ 100) && decide (pyWordCount k ≤ 6))
  cleaned.take maxCombinations

set_option maxRecDepth 40000 in
/-- Claim C9 counterexample: the returned list is not deduplicated.
Deduplication happens on the raw `set` before cleaning; the seeds "Yoga"
and "yoga" are distinct set elements that both normalize to "yoga", so with
`max_combinations = 1000` (no truncation) the result contains "yoga"
twice — the returned list has an element of multiplicity 2, so it is not
deduplicated.  (The duplicate multiplicity does not depend on the modelled
set order, because no truncation occurs at this cap.) -/
theorem claim_C9_expand_keywords_counterexample :
    (expandKeywords ["Yoga", "yoga"] 1000).count "yoga" = 2 := by
  decide

/-- Claim C9, amended: `expand_keywords` returns a list of at most
`max_combinations` phrases, each at most 100 characters and at most 6
words, and an empty seed list yields an empty result; the list is however
not guaranteed to be deduplicated, because deduplication is applied to the
raw combination set before the phrases are lower-cased and
whitespace-normalized, so distinct raw variants can normalize to the same
returned phrase. -/
theorem claim_C9_expand_keywords_amended :
    ∀ (baseKeywords : List String) (maxCombinations : ℕ),
      (expandKeywords baseKeywords maxCombinations).length ≤ maxCombinations ∧
      (expandKeywords baseKeywords maxCombinations).all
        (fun k => decide (k.length ≤ 100) && decide (pyWordCount k ≤ 6)) = true ∧
      expandKeywords [] maxCombinations = [] := by
  intro baseKeywords maxCombinations
  refine ⟨?_, ?_, ?_⟩
  · simp only [expandKeywords]
    rw [List.length_take]
    exact min_le_left _ _
  · rw [List.all_eq_true]
    intro x hx
    simp only [expandKeywords] at hx
    exact (List.mem_filter.mp (List.mem_of_mem_take hx)).2
  · simp [expandKeywords]

/-! ## `agent/tools/stress_testing.py` -/

/-- Embedding of the `StressScenario` enum. -/
inductive StressScenario where
  | marketSaturation | economicDownturn | competitiveFlooding | seasonalCrash
  | platformChanges | trendReversal | consumerShift | supplyChainDisruption
  deriving DecidableEq, Repr

/-- The `.value` string of a `StressScenario` member. -/
def scenarioValue : StressScenario → String
  | .marketSaturation => "market_saturation"
  | .economicDownturn => "economic_downturn"
  | .competitiveFlooding => "competitive_flooding"
  | .seasonalCrash => "seasonal_crash"
  | .platformChanges => "platform_changes"
  | .trendReversal => "trend_reversal"
  | .consumerShift => "consumer_shift"
  | .supplyChainDisruption => "supply_chain_disruption"

/-- Embedding of the `StressTestParameters` dataclass. -/
structure StressTestParameters where
  scenario : StressScenario
  severity : ℚ
  duration_months : ℤ
  recovery_months : ℤ
  probability : ℚ
  description : String := ""
  deriving DecidableEq, Repr

/-- Embedding of the `ScenarioResult` dataclass. -/
structure ScenarioResult where
  scenario : StressScenario
  parameters : StressTestParameters
  initial_score : ℚ
  stressed_score : ℚ
  recovery_score : ℚ
  impact_percentage : ℚ
  resilience_score : ℚ
  survival_probability : ℚ
  key_vulnerabilities : List String
  mitigation_strategies : List String
  deriving DecidableEq, Repr

/-- Reading a float-valued attribute of a `Niche` by name, as CPython
resolves it: the numeric dataclass fields and the `overall_score`
property succeed; any other name raises `AttributeError`.  In particular
`profitability_score` (the dataclass renamed it
`profitability_score_numeric`), the misspelling
`competition_score_numreic`, and `competition_score` are not
attributes of `Niche`. -/
def nicheGetNum (n : Niche) : String → Except PyErr ℚ
  | "competition_score_numeric" => pure n.competition_score_numeric
  | "profitability_score_numeric" => pure n.profitability_score_numeric
  | "market_size_score" => pure n.market_size_score
  | "confidence_score" => pure n.confidence_score
  | "overall_score" => pure n.overallScore
  | name => .error (.attributeError name)

/-- Reading any attribute of a `Niche` by name, keeping only the success
or `AttributeError` outcome. -/
def nicheAttr (name : String) : Except PyErr Unit :=
  if nicheHasAttr name then pure () else .error (.attributeError name)

/-- Helper evaluation: `price_range` is not an attribute of `Niche` (the
dataclass field is `recommended_price_range`). -/
theorem nicheAttr_price_range :
    nicheAttr "price_range" = .error (.attributeError "price_range") := rfl

/-- Helper evaluation: `profitability_score` is not an attribute of `Niche`
(the dataclass field is `profitability_score_numeric`). -/
theorem nicheGetNum_profitability_score (n : Niche) :
    nicheGetNum n "profitability_score" =
      .error (.attributeError "profitability_score") := rfl

/-- Embedding of `StressTester._calculate_stress_impact`.  The
ECONOMIC_DOWNTURN branch reads `niche.price_range`, which is not an
attribute of `Niche`; its price adjustment is unreachable and cannot even
be formed. -/
def calcStressImpact (n : Niche) (p : StressTestParameters)
    (trend : Option TrendAnalysis) : Except PyErr ℚ := do
  let baseImpact := p.severity * 0.5
  let baseImpact ← (match p.scenario with
    | .marketSaturation =>
      let competitionFactor := n.competition_score_numeric / 100
      pure (baseImpact * (1 + competitionFactor))
    | .economicDownturn => do
      let _ ← nicheAttr "price_range"
      pure baseImpact
    | .competitiveFlooding =>
      let competitionVulnerability := (100 - n.competition_score_numeric) / 100
      pure (baseImpact * (1 + competitionVulnerability * 0.8))
    | .seasonalCrash =>
      let seasonalFactor : ℚ :=
        if n.seasonal_factors ≠ [] then
          (n.seasonal_factors.lookup "volatility").getD 0.5
        else 0.5
      pure (baseImpact * (1 + seasonalFactor))
    | .trendReversal =>
      match trend with
      | some t => pure (baseImpact * (1 + t.trend_score / 100 * 0.7))
      | none => pure baseImpact
    | .consumerShift =>
      let marketSizeFactor := (100 - n.market_size_score) / 100
      pure (baseImpact * (1 + marketSizeFactor * 0.6))
    | .platformChanges => pure baseImpact
    | .supplyChainDisruption => pure baseImpact)
  let durationFactor := min 1.5 ((p.duration_months : ℚ) / 12)
  pure (min 0.95 (baseImpact * durationFactor))

/-- Embedding of `StressTester._calculate_recovery_factor`.  Its first
adjustment reads `niche.profitability_score` and its second the misspelled
`niche.competition_score_numreic`; neither is an attribute of `Niche`, so
the function raises `AttributeError` at the first read on every call. -/
def calcRecoveryFactor (n : Niche) (p : StressTestParameters)
    (stressImpact : ℚ) : Except PyErr ℚ := do
  let baseRecovery : ℚ := 0.7
  let profitabilityScore ← nicheGetNum n "profitability_score"
  let baseRecovery := baseRecovery + profitabilityScore / 100 * 0.2
  let competitionScore ← nicheGetNum n "competition_score_numreic"
  let baseRecovery := baseRecovery + (100 - competitionScore) / 100 * 0.15
  let marketScore ← nicheGetNum n "market_size_score"
  let baseRecovery := baseRecovery + marketScore / 100 * 0.1
  let baseRecovery := baseRecovery * min 1.2 ((p.recovery_months : ℚ) / 12)
  let baseRecovery := baseRecovery * (1 - stressImpact * 0.3)
  pure (min 1 (max 0.1 baseRecovery))

/-- Embedding of `StressTester._calculate_survival_probability`. -/
def calcSurvivalProbability (stressedScore recoveryScore : ℚ)
    (p : StressTestParameters) : ℚ :=
  let baseSurvival : ℚ :=
    if stressedScore ≥ 60 then 0.95
    else if stressedScore ≥ 40 then 0.8
    else if stressedScore ≥ 20 then 0.6
    else if stressedScore ≥ 10 then 0.3
    else 0.1
  let baseSurvival := baseSurvival + recoveryScore / 100 * 0.2
  let severityPenalty := p.severity * 0.15
  let durationPenalty := min 0.2 ((p.duration_months : ℚ) / 24)
  min 1 (max 0.05 (baseSurvival - severityPenalty - durationPenalty))

/-- Embedding of `StressTester._identify_vulnerabilities`.  The general
check at the end reads `niche.profitability_score` (not an attribute of
`Niche`); the ECONOMIC_DOWNTURN branch reads `niche.price_range`
(likewise missing). -/
def identifyVulnerabilities (n : Niche) (p : StressTestParameters)
    (stressImpact : ℚ) : Except PyErr (List String) := do
  let vulnerabilities : List String :=
    if stressImpact > 0.7 then
      ["High vulnerability to " ++ scenarioValue p.scenario]
    else []
  let vulnerabilities ← (match p.scenario with
    | .marketSaturation =>
      let v :=
        if n.competition_score_numeric > 70 then
          vulnerabilities ++ ["Already high competition makes saturation more likely"]
        else vulnerabilities
      let v :=
        if n.market_size_score < 40 then
          v ++ ["Small market size limits growth potential"]
        else v
      pure v
    | .economicDownturn => do
      let _ ← nicheAttr "price_range"
      pure vulnerabilities
    | .competitiveFlooding =>
      let v :=
        if n.competition_score_numeric < 50 then
          vulnerabilities ++ ["Low competition barriers allow easy entry"]
        else vulnerabilities
      let v :=
        if n.content_gaps = [] then
          v ++ ["Limited content differentiation opportunities"]
        else v
      pure v
    | .seasonalCrash =>
      let v :=
        if n.seasonal_factors ≠ [] ∧
            (n.seasonal_factors.lookup "volatility").getD 0 > 0.6 then
          vulnerabilities ++ ["High seasonal volatility increases crash risk"]
        else vulnerabilities
      pure v
    | _ => pure vulnerabilities)
  let vulnerabilities :=
    if n.confidence_score < 60 then
      vulnerabilities ++ ["Low confidence in niche data increases uncertainty"]
    else vulnerabilities
  let profitabilityScore ← nicheGetNum n "profitability_score"
  let vulnerabilities :=
    if profitabilityScore < 50 then
      vulnerabilities ++ ["Low profitability reduces stress resilience"]
    else vulnerabilities
  pure vulnerabilities

/-- Embedding of `StressTester._generate_mitigation_strategies`.  The
general checks read `niche.profitability_score` and
`niche.competition_score`, neither an attribute of `Niche`. -/
def generateMitigationStrategies (n : Niche) (p : StressTestParameters)
    (_vulnerabilities : List String) : Except PyErr (List String) := do
  let strategies : List String :=
    match p.scenario with
    | .marketSaturation =>
      ["Develop unique content angles to differentiate from competitors",
       "Focus on sub-niches with less competition",
       "Build strong brand recognition early"]
    | .economicDownturn =>
      ["Consider lower-priced product options",
       "Emphasize value proposition and practical benefits",
       "Diversify into recession-resistant sub-topics"]
    | .competitiveFlooding =>
      ["Establish first-mover advantage quickly",
       "Create high-quality content that is hard to replicate",
       "Build customer loyalty through superior value"]
    | .seasonalCrash =>
      ["Develop year-round content strategy",
       "Create evergreen content to smooth seasonal variations",
       "Plan inventory and marketing around seasonal patterns"]
    | .platformChanges =>
      ["Diversify across multiple platforms",
       "Stay updated on platform policy changes",
       "Build direct customer relationships"]
    | .trendReversal =>
      ["Monitor trend indicators closely",
       "Prepare pivot strategies for related niches",
       "Build adaptable content frameworks"]
    | _ => []
  let profitabilityScore ← nicheGetNum n "profitability_score"
  let strategies :=
    if profitabilityScore < 60 then
      strategies ++ ["Focus on improving profit margins through premium positioning"]
    else strategies
  let strategies :=
    if n.market_size_score < 50 then
      strategies ++ ["Expand target market through related keywords and topics"]
    else strategies
  let competitionScore ← nicheGetNum n "competition_score"
  let strategies :=
    if competitionScore > 70 then
      strategies ++ ["Identify and exploit competitor weaknesses"]
    else strategies
  pure (strategies.take 5)

/-- Embedding of `StressTester.simulate_scenario`. -/
def simulateScenario (n : Niche) (p : StressTestParameters)
    (trend : Option TrendAnalysis) : Except PyErr ScenarioResult := do
  let initialScore := n.overallScore
  let stressImpact ← calcStressImpact n p trend
  let stressedScore := max 0 (initialScore * (1 - stressImpact))
  let recoveryFactor ← calcRecoveryFactor n p stressImpact
  let recoveryScore :=
    min initialScore (stressedScore + (initialScore - stressedScore) * recoveryFactor)
  let impactRatio ← pyDiv (initialScore - stressedScore) initialScore
  let impactPercentage := impactRatio * 100
  let resilienceRatio ← pyDiv stressedScore initialScore
  let resilienceScore := resilienceRatio * 100
  let survivalProbability := calcSurvivalProbability stressedScore recoveryScore p
  let vulnerabilities ← identifyVulnerabilities n p stressImpact
  let mitigations ← generateMitigationStrategies n p vulnerabilities
  pure { scenario := p.scenario, parameters := p,
         initial_score := roundTo initialScore 1,
         stressed_score := roundTo stressedScore 1,
         recovery_score := roundTo recoveryScore 1,
         impact_percentage := roundTo impactPercentage 1,
         resilience_score := roundTo resilienceScore 1,
         survival_probability := roundTo survivalProbability 2,
         key_vulnerabilities := vulnerabilities,
         mitigation_strategies := mitigations }

/-- Claim C4 (code bug evaluation): `simulate_scenario` never produces a
`ScenarioResult`.  For every niche, scenario parameters and optional trend
analysis it raises `AttributeError`: `_calculate_recovery_factor` reads
`niche.profitability_score` (renamed `profitability_score_numeric` in the
dataclass) — and for ECONOMIC_DOWNTURN the stress-impact calculation
already reads the missing `niche.price_range`.  The claimed relations
between recovery, impact and resilience scores are therefore never
witnessed by any return value. -/
theorem claim_C4_simulate_scenario_always_raises :
    ∀ (n : Niche) (p : StressTestParameters) (trend : Option TrendAnalysis),
      ∃ name, simulateScenario n p trend = .error (.attributeError name) := by
  intro n p trend
  cases hps : p.scenario
  case economicDownturn =>
    refine ⟨"price_range", ?_⟩
    cases trend <;>
      simp only [simulateScenario, calcStressImpact, calcRecoveryFactor, hps,
        nicheAttr_price_range, nicheGetNum_profitability_score,
        Bind.bind, Except.bind, pure, Except.pure]
  all_goals
    refine ⟨"profitability_score", ?_⟩
    cases trend <;>
      simp only [simulateScenario, calcStressImpact, calcRecoveryFactor, hps,
        nicheAttr_price_range, nicheGetNum_profitability_score,
        Bind.bind, Except.bind, pure, Except.pure]

/-- Python `statistics.mean`: raises `StatisticsError` on an empty list. -/
def pyMean (l : List ℚ) : Except PyErr ℚ :=
  if l = [] then .error (.statisticsError "mean requires at least one data point")
  else pure (l.sum / (l.length : ℚ))

/-- Python `min` over a list: raises `ValueError` on an empty list. -/
def pyMinList : List ℚ → Except PyErr ℚ
  | [] => .error (.valueError "min() arg is an empty sequence")
  | x :: xs => pure (xs.foldl min x)

/-- Python `max` over a list: raises `ValueError` on an empty list. -/
def pyMaxList : List ℚ → Except PyErr ℚ
  | [] => .error (.valueError "max() arg is an empty sequence")
  | x :: xs => pure (xs.foldl max x)

/-- Embedding of `_calculate_overall_resilience`: 0.0 for an empty result
list, otherwise the probability-weighted average of the resilience scores
(plain mean when the total weight is zero). -/
def calcOverallResilience (results : List ScenarioResult) : Except PyErr ℚ :=
  if results = [] then pure 0
  else
    let weightedResilience := results.foldl
      (fun acc r => acc + r.resilience_score * r.parameters.probability) 0
    let totalWeight := results.foldl
      (fun acc r => acc + r.parameters.probability) 0
    if totalWeight = 0 then pyMean (results.map (fun r => r.resilience_score))
    else pure (roundTo (weightedResilience / totalWeight) 1)

/-- Embedding of `_determine_risk_profile` (the low-survival count is
computed by the source but unused). -/
def determineRiskProfile (results : List ScenarioResult)
    (overallResilience : ℚ) : RiskLevel :=
  let highImpactScenarios :=
    (results.filter (fun r => decide (r.impact_percentage > 50))).length
  let _lowSurvivalScenarios :=
    (results.filter (fun r => decide (r.survival_probability < 0.7))).length
  if overallResilience ≥ 80 ∧ highImpactScenarios ≤ 1 then .low
  else if overallResilience ≥ 60 ∧ highImpactScenarios ≤ 3 then .medium
  else if overallResilience ≥ 40 then .high
  else .veryHigh

/-- Incrementing a counter dict (association list in insertion order). -/
def bumpCount : List (String × ℕ) → String → List (String × ℕ)
  | [], v => [(v, 1)]
  | (k, c) :: rest, v =>
    if k == v then (k, c + 1) :: rest else (k, c) :: bumpCount rest v

/-- Adding a weight into a weight dict (association list in insertion
order). -/
def bumpWeight : List (String × ℚ) → String → ℚ → List (String × ℚ)
  | [], v, w => [(v, w)]
  | (k, c) :: rest, v, w =>
    if k == v then (k, c + w) :: rest else (k, c) :: bumpWeight rest v w

/-- Embedding of `_identify_critical_vulnerabilities`.  `list(set(...))`
has unspecified order in Python; it is modelled as first-occurrence
deduplication. -/
def identifyCriticalVulnerabilities (results : List ScenarioResult) :
    List String :=
  let vulnerabilityCounts := results.foldl
    (fun acc r => r.key_vulnerabilities.foldl bumpCount acc) []
  let criticalVulnerabilities := results.foldl
    (fun acc r =>
      if r.impact_percentage > 60 ∨ r.survival_probability < 0.6 then
        acc ++ r.key_vulnerabilities
      else acc) []
  let commonVulnerabilities :=
    ((vulnerabilityCounts.filter (fun p => decide (2 ≤ p.2))).map (fun p => p.1))
  let allCritical :=
    (criticalVulnerabilities ++ commonVulnerabilities).foldl setAdd []
  allCritical.take 5

/-- Embedding of `_generate_recommended_mitigations`: strategies weighted
by probability × impact fraction, sorted descending (stably, as Python's
`sorted`), top 8. -/
def generateRecommendedMitigations (results : List ScenarioResult)
    (_criticalVulnerabilities : List String) : List String :=
  let mitigationCounts := results.foldl
    (fun acc r => r.mitigation_strategies.foldl
      (fun acc2 m =>
        bumpWeight acc2 m (r.parameters.probability * (r.impact_percentage / 100)))
      acc) []
  let sortedMitigations :=
    mitigationCounts.mergeSort (fun a b => decide (b.2 ≤ a.2))
  (sortedMitigations.map (fun p => p.1)).take 8

/-- Embedding of `_calculate_test_confidence`. -/
def calcTestConfidence (n : Niche) (trend : Option TrendAnalysis)
    (scenariosTested : ℕ) : ℚ :=
  let baseConfidence : ℚ := 0.7
  let baseConfidence := baseConfidence + n.confidence_score / 100 * 0.2
  let baseConfidence :=
    match trend with
    | some t => baseConfidence + t.confidence_level * 0.15
    | none => baseConfidence
  let scenarioFactor := min 1 ((scenariosTested : ℚ) / 8) * 0.15
  roundTo (min 1 (baseConfidence + scenarioFactor)) 2

/-- Embedding of `_get_highest_risk_scenarios`: (scenario value, rounded
risk score) sorted descending by risk, top 3.  (The report dict repeats
the impact percentage and probability; only the sort key and name are kept
here.) -/
def getHighestRiskScenarios (results : List ScenarioResult) :
    List (String × ℚ) :=
  let riskScenarios := results.map (fun r =>
    (scenarioValue r.scenario,
     roundTo ((r.impact_percentage / 100) * r.parameters.probability) 3))
  (riskScenarios.mergeSort (fun a b => decide (b.2 ≤ a.2))).take 3

/-- Embedding of `_get_lowest_resilience_scenarios`: (scenario value,
resilience score, survival probability) sorted ascending by resilience,
top 3. -/
def getLowestResilienceScenarios (results : List ScenarioResult) :
    List (String × ℚ × ℚ) :=
  let resilienceScenarios := results.map (fun r =>
    (scenarioValue r.scenario, r.resilience_score, r.survival_probability))
  (resilienceScenarios.mergeSort (fun a b => decide (a.2.1 ≤ b.2.1))).take 3

/-- The dict built by `_analyze_survival_probabilities`. -/
structure SurvivalAnalysis where
  average_survival_probability : ℚ
  worst_case_survival : ℚ
  best_case_survival : ℚ
  scenarios_below_70_percent : ℕ
  scenarios_below_50_percent : ℕ
  deriving DecidableEq, Repr

/-- Embedding of `_analyze_survival_probabilities`: with no scenario
results, `mean(survival_probs)` is the mean of an empty list and raises
`StatisticsError`. -/
def analyzeSurvivalProbabilities (results : List ScenarioResult) :
    Except PyErr SurvivalAnalysis := do
  let survivalProbs := results.map (fun r => r.survival_probability)
  let avg ← pyMean survivalProbs
  let worst ← pyMinList survivalProbs
  let best ← pyMaxList survivalProbs
  pure { average_survival_probability := roundTo avg 3,
         worst_case_survival := roundTo worst 3,
         best_case_survival := roundTo best 3,
         scenarios_below_70_percent :=
           (survivalProbs.filter (fun p => decide (p < 0.7))).length,
         scenarios_below_50_percent :=
           (survivalProbs.filter (fun p => decide (p < 0.5))).length }

/-- Embedding of `_assess_niche_data_completeness`.  The second factor
reads `niche.related_keywords`, which is not an attribute of `Niche` (the
dataclass field is `keywords`), so the assessment raises
`AttributeError` on every call; the later factors read further missing
attributes and the final sum is unreachable. -/
def assessNicheDataCompleteness (n : Niche) : Except PyErr ℚ := do
  let completenessScore : ℚ := 0
  let totalFactors : ℚ := 8
  let completenessScore :=
    if n.primary_keyword ≠ "" then completenessScore + 1 else completenessScore
  let _ ← nicheAttr "related_keywords"
  let _ ← nicheAttr "competition_score"
  let _ ← nicheAttr "profitability_score"
  let completenessScore :=
    if n.market_size_score > 0 then completenessScore + 1 else completenessScore
  let _ ← nicheAttr "trend_analysis"
  let _ ← nicheAttr "competitor_data"
  let _ ← nicheAttr "price_range"
  pure (roundTo (completenessScore / totalFactors) 2)

/-- The deterministic content of the success dict built by
`niche_stress_test` after the scenario loop (summary, risk analysis and
metadata entries whose values the claims inspect).  The recommendation
lists (`immediate_actions`, `strategic_mitigations`,
`_get_monitoring_priorities`, `_get_contingency_recommendations`) are pure
string builders that cannot raise and are evaluated between the survival
analysis and the completeness assessment; they are not recorded here. -/
structure StressTestOutput where
  overall_resilience : ℚ
  risk_profile : RiskLevel
  scenarios_tested : ℕ
  confidence_level : ℚ
  critical_vulnerabilities : List String
  recommended_mitigations : List String
  highest_risk_scenarios : List (String × ℚ)
  lowest_resilience_scenarios : List (String × ℚ × ℚ)
  survival_analysis : SurvivalAnalysis
  niche_data_completeness : ℚ
  deriving DecidableEq, Repr

/-- The value `niche_stress_test` returns: either the success report dict
or the `except`-branch error dict `{"error": str(e), …}`. -/
inductive StressTestOutcome where
  | report (output : StressTestOutput)
  | errorDict (msg : String)
  deriving DecidableEq, Repr

/-- Embedding of the report assembly of `niche_stress_test`, from the end
of the scenario loop onward: given the niche, the optional trend analysis
and the collected `scenario_results`, compute the report pieces and build
the result dict.  The dict literal evaluates its entries in order, so the
survival analysis (inside `"risk_analysis"`) runs before the completeness
assessment (inside `"test_metadata"`), and the first exception wins. -/
def buildStressTestResult (niche : Niche) (trend : Option TrendAnalysis)
    (scenarioResults : List ScenarioResult) :
    Except PyErr StressTestOutput := do
  let overallResilience ← calcOverallResilience scenarioResults
  let riskProfile := determineRiskProfile scenarioResults overallResilience
  let criticalVulnerabilities := identifyCriticalVulnerabilities scenarioResults
  let recommendedMitigations :=
    generateRecommendedMitigations scenarioResults criticalVulnerabilities
  let confidenceLevel := calcTestConfidence niche trend scenarioResults.length
  let highestRisk := getHighestRiskScenarios scenarioResults
  let lowestResilience := getLowestResilienceScenarios scenarioResults
  let survival ← analyzeSurvivalProbabilities scenarioResults
  let completeness ← assessNicheDataCompleteness niche
  pure { overall_resilience := overallResilience,
         risk_profile := riskProfile,
         scenarios_tested := scenarioResults.length,
         confidence_level := confidenceLevel,
         critical_vulnerabilities := criticalVulnerabilities,
         recommended_mitigations := recommendedMitigations,
         highest_risk_scenarios := highestRisk,
         lowest_resilience_scenarios := lowestResilience,
         survival_analysis := survival,
         niche_data_completeness := completeness }

/-- Embedding of `niche_stress_test`'s outcome from the scenario loop
onward: the surrounding `try`/`except` catches any exception of the report
assembly and returns the error dict `{"error": str(e), …}` instead. -/
def nicheStressTestCore (niche : Niche) (trend : Option TrendAnalysis)
    (scenarioResults : List ScenarioResult) : StressTestOutcome :=
  match buildStressTestResult niche trend scenarioResults with
  | .ok out => .report out
  | .error e => .errorDict e.message

/-- A concrete niche record (as the scenario loop would hold it). -/
def exampleNiche : Niche :=
  { category := "yoga books", primary_keyword := "yoga",
    keywords := ["yoga", "yoga guide", "yoga tips"],
    competition_score_numeric := 50, profitability_score_numeric := 60,
    market_size_score := 55, confidence_score := 70 }

/-- Claim C5 counterexample: with zero successful scenario simulations the
stress test does not return a report with overall resilience 0 — it
returns the `except`-branch error dict, whose message is the empty-mean
`StatisticsError` text, because `_analyze_survival_probabilities` takes
`mean([])`. -/
theorem claim_C5_zero_scenarios_counterexample :
    nicheStressTestCore exampleNiche none [] =
      .errorDict "mean requires at least one data point" := rfl

/-- Claim C5, amended: with zero successful scenario simulations,
`_calculate_overall_resilience` alone does return 0.0, but the stress test
as a whole aborts while analyzing survival probabilities (the mean of an
empty list raises `StatisticsError`), and for every niche and trend input
the caught exception turns the run into the error dictionary carrying that
exception's message — no resilience-0 report and no "no usable scenario
results" message are produced. -/
theorem claim_C5_zero_scenarios_amended :
    calcOverallResilience [] = .ok 0 ∧
    analyzeSurvivalProbabilities [] =
      .error (.statisticsError "mean requires at least one data point") ∧
    (∀ (niche : Niche) (trend : Option TrendAnalysis),
      nicheStressTestCore niche trend [] =
        .errorDict "mean requires at least one data point") :=
  ⟨rfl, rfl, fun _ _ => rfl⟩
